import Mathlib

/-!
Shallow embedding of the two Flask fixture backends in
`cloudrun-wasm/01-edge-security/infrastructure/backend/app.py` and
`cloudrun-wasm/02-smart-router/infrastructure/backend/app.py`.

JSON documents are modelled by the inductive `Json`; an HTTP request by the
`Request` structure (method, path, headers, query args, raw body text, remote
address); a response by `Response` (status code plus body).  Flask returns the
framework's default HTML error page when a path matches a registered rule but
the method is not allowed (HTTP 405); that page's text is not defined in this
repository, so it is modelled abstractly by `RespBody.framework`.

Clock readings (`datetime.now(timezone.utc)`) are modelled as non-negative
microsecond counts; `int((now - START_TIME).total_seconds())` is modelled as
`(now - start) / 1000000` on naturals, which agrees with the Python code
whenever the reading is at or after the captured start timestamp.
-/

inductive Json where
  | str (s : String)
  | int (n : Int)
  | bool (b : Bool)
  | arr (xs : List Json)
  | obj (fields : List (String × Json))

/-- Look up a top-level field of a JSON object (first occurrence). -/
def Json.getField : Json → String → Option Json
  | .obj fields, name => (fields.find? (fun p => p.1 == name)).map Prod.snd
  | _, _ => none

/-- The list of top-level keys of a JSON object. -/
def Json.keys : Json → List String
  | .obj fields => fields.map Prod.fst
  | _ => []

mutual
/-- `true` iff a field named `name` occurs anywhere in the JSON tree. -/
def Json.hasDeep (name : String) : Json → Bool
  | .str _ => false
  | .int _ => false
  | .bool _ => false
  | .arr xs => hasDeepList name xs
  | .obj fs => hasDeepFields name fs

def hasDeepList (name : String) : List Json → Bool
  | [] => false
  | x :: xs => Json.hasDeep name x || hasDeepList name xs

def hasDeepFields (name : String) : List (String × Json) → Bool
  | [] => false
  | (k, v) :: fs => k == name || Json.hasDeep name v || hasDeepFields name fs
end

inductive Method where
  | GET
  | POST
deriving DecidableEq

structure Request where
  method : Method
  path : String
  headers : List (String × String)
  args : List (String × String)
  body : String
  remoteAddr : String
deriving DecidableEq

inductive RespBody where
  | json (j : Json)
  | framework (status : Nat)

structure Response where
  status : Nat
  body : RespBody

/-- The JSON body of a response, when it has one. -/
def Response.jsonBody? : Response → Option Json
  | ⟨_, .json j⟩ => some j
  | ⟨_, .framework _⟩ => none

/-- The code point of a character with ASCII upper-case letters lowered
(header names are ASCII tokens, so ASCII folding models the
case-insensitive comparison Werkzeug applies to header names). -/
def lowerCode (c : Char) : Nat :=
  if 65 ≤ c.toNat ∧ c.toNat ≤ 90 then c.toNat + 32 else c.toNat

/-- Case-insensitive string comparison on header names. -/
def eqCI (a b : String) : Bool :=
  a.data.map lowerCode == b.data.map lowerCode

/-- `request.headers.get(name, dflt)`: Flask header lookup is
case-insensitive and returns the first matching value, or the default. -/
def headerGet (hs : List (String × String)) (name dflt : String) : String :=
  match hs.find? (fun p => eqCI p.1 name) with
  | some p => p.2
  | none => dflt

/-- The first value carried for a header, if any (case-insensitive). -/
def headerLookup (hs : List (String × String)) (name : String) : Option String :=
  (hs.find? (fun p => eqCI p.1 name)).map Prod.snd

/-- `dict(request.headers)` serialized into the response. -/
def headersJson (hs : List (String × String)) : Json :=
  .obj (hs.map fun p => (p.1, .str p.2))

/-- `dict(request.args)` serialized into the response. -/
def argsJson (as : List (String × String)) : Json :=
  .obj (as.map fun p => (p.1, .str p.2))

/-- Flask's default response when a path matches a route but the
method is not among the allowed ones: HTTP 405 with the framework's page. -/
def methodNotAllowed : Response := ⟨405, .framework 405⟩

namespace SmartRouter

/-- `health` of the smart-router app (app.py lines 34-48). -/
def health (startMicros nowMicros : Nat) : Response :=
  ⟨200, .json (.obj [
    ("status", .str "healthy"),
    ("version", .str "1.0.0"),
    ("demo", .str "02-smart-router"),
    ("uptime_seconds", .int (Int.ofNat ((nowMicros - startMicros) / 1000000)))])⟩

/-- `get_version_v1` (app.py lines 56-82), bound to both
`/api/version` and `/v1/api/version`. -/
def get_version_v1 (req : Request) : Response :=
  ⟨200, .json (.obj [
    ("version", .str "v1"),
    ("environment", .str "production"),
    ("build", .str "2024.01.15.001"),
    ("features", .obj [
      ("new_dashboard", .bool false),
      ("beta_analytics", .bool false)]),
    ("routing_info", .obj [
      ("routed_by", .str (headerGet req.headers "X-Routed-By" "direct")),
      ("route_reason", .str (headerGet req.headers "X-Route-Reason" "none"))])])⟩

/-- `get_version_v2` (app.py lines 85-112). -/
def get_version_v2 (req : Request) : Response :=
  ⟨200, .json (.obj [
    ("version", .str "v2-beta"),
    ("environment", .str "beta"),
    ("build", .str "2024.01.20.042"),
    ("features", .obj [
      ("new_dashboard", .bool true),
      ("beta_analytics", .bool true),
      ("experimental_ai", .bool true)]),
    ("routing_info", .obj [
      ("routed_by", .str (headerGet req.headers "X-Routed-By" "direct")),
      ("route_reason", .str (headerGet req.headers "X-Route-Reason" "none"))])])⟩

/-- `get_data_v1` (app.py lines 115-128). -/
def get_data_v1 : Response :=
  ⟨200, .json (.obj [
    ("version", .str "v1"),
    ("data", .obj [
      ("items", .arr [.str "item1", .str "item2", .str "item3"]),
      ("count", .int 3)])])⟩

/-- `get_data_v2` (app.py lines 131-146). -/
def get_data_v2 : Response :=
  ⟨200, .json (.obj [
    ("version", .str "v2-beta"),
    ("data", .obj [
      ("items", .arr [.str "item1", .str "item2", .str "item3",
                      .str "item4-new", .str "item5-beta"]),
      ("count", .int 5),
      ("enhanced", .bool true),
      ("ai_recommendations", .arr [.str "rec1", .str "rec2"])])])⟩

/-- `debug_headers` (app.py lines 154-167). -/
def debug_headers (req : Request) : Response :=
  ⟨200, .json (.obj [
    ("headers", headersJson req.headers),
    ("method", .str (match req.method with | .GET => "GET" | .POST => "POST")),
    ("path", .str req.path),
    ("remote_addr", .str req.remoteAddr)])⟩

/-- `debug_echo` (app.py lines 170-185): method, path, headers, args,
and for POST additionally the raw request body decoded as text. -/
def debug_echo (req : Request) : Response :=
  ⟨200, .json (.obj (
    [("method", .str (match req.method with | .GET => "GET" | .POST => "POST")),
     ("path", .str req.path),
     ("headers", headersJson req.headers),
     ("args", argsJson req.args)] ++
    (match req.method with
     | .POST => [("body", Json.str req.body)]
     | .GET => [])))⟩

/-- `not_found` 404 handler (app.py lines 193-200). -/
def not_found (req : Request) : Response :=
  ⟨404, .json (.obj [
    ("error", .str "Not Found"),
    ("message", .str ("The requested URL " ++ req.path ++ " was not found")),
    ("status", .int 404)])⟩

/-- `internal_error` 500 handler (app.py lines 203-211); the error is
logged server-side and does not appear in the body. -/
def internal_error (_e : String) : Response :=
  ⟨500, .json (.obj [
    ("error", .str "Internal Server Error"),
    ("message", .str "An unexpected error occurred"),
    ("status", .int 500)])⟩

/-- Route dispatch of the smart-router app: Flask matches the path first;
a matched path with a disallowed method yields the framework 405 page, an
unmatched path invokes the registered 404 handler.  All routes except
`/debug/echo` accept only GET. -/
def dispatch (startMicros nowMicros : Nat) (req : Request) : Response :=
  if req.path = "/health" then
    if req.method = Method.GET then health startMicros nowMicros else methodNotAllowed
  else if req.path = "/api/version" then
    if req.method = Method.GET then get_version_v1 req else methodNotAllowed
  else if req.path = "/v1/api/version" then
    if req.method = Method.GET then get_version_v1 req else methodNotAllowed
  else if req.path = "/v2/api/version" then
    if req.method = Method.GET then get_version_v2 req else methodNotAllowed
  else if req.path = "/v1/api/data" then
    if req.method = Method.GET then get_data_v1 else methodNotAllowed
  else if req.path = "/v2/api/data" then
    if req.method = Method.GET then get_data_v2 else methodNotAllowed
  else if req.path = "/debug/headers" then
    if req.method = Method.GET then debug_headers req else methodNotAllowed
  else if req.path = "/debug/echo" then
    debug_echo req
  else
    not_found req

/-- The Flask request boundary: an unhandled exception raised while
building the response is converted by the 500 handler. -/
def handleRequest (fault : Option String) (startMicros nowMicros : Nat)
    (req : Request) : Response :=
  match fault with
  | some e => internal_error e
  | none => dispatch startMicros nowMicros req

end SmartRouter

namespace EdgeSecurity

/-- `health` of the edge-security app (app.py lines 34-48). -/
def health (startMicros nowMicros : Nat) : Response :=
  ⟨200, .json (.obj [
    ("status", .str "healthy"),
    ("version", .str "1.0.0"),
    ("demo", .str "01-edge-security"),
    ("uptime_seconds", .int (Int.ofNat ((nowMicros - startMicros) / 1000000)))])⟩

/-- `get_user` (app.py lines 56-85): literal user record with PII. -/
def get_user : Response :=
  ⟨200, .json (.obj [
    ("id", .str "user-12345"),
    ("name", .str "John Doe"),
    ("email", .str "john.doe@example.com"),
    ("phone", .str "555-123-4567"),
    ("ssn", .str "123-45-6789"),
    ("payment", .obj [
      ("card_number", .str "4111-1111-1111-1111"),
      ("expiry", .str "12/25"),
      ("billing_address", .obj [
        ("street", .str "123 Main St"),
        ("city", .str "Anytown"),
        ("state", .str "CA"),
        ("zip", .str "12345")])]),
    ("created_at", .str "2024-01-15T10:30:00Z")])⟩

/-- `get_user_clean` (app.py lines 88-107): literal user record without PII. -/
def get_user_clean : Response :=
  ⟨200, .json (.obj [
    ("id", .str "user-12345"),
    ("name", .str "John Doe"),
    ("membership", .str "gold"),
    ("preferences", .obj [
      ("newsletter", .bool true),
      ("notifications", .bool true)]),
    ("created_at", .str "2024-01-15T10:30:00Z")])⟩

/-- `get_users` (app.py lines 110-142): three literal user records
plus a `total` count. -/
def get_users : Response :=
  ⟨200, .json (.obj [
    ("users", .arr [
      .obj [
        ("id", .str "user-001"),
        ("name", .str "Alice Smith"),
        ("email", .str "alice.smith@example.com"),
        ("ssn", .str "111-22-3333"),
        ("card", .str "5500-0000-0000-0004")],
      .obj [
        ("id", .str "user-002"),
        ("name", .str "Bob Johnson"),
        ("email", .str "bob.j@company.org"),
        ("ssn", .str "444-55-6666"),
        ("card", .str "3400-000000-00009")],
      .obj [
        ("id", .str "user-003"),
        ("name", .str "Carol Williams"),
        ("email", .str "carol@personal.net"),
        ("ssn", .str "777-88-9999"),
        ("card", .str "6011-0000-0000-0004")]]),
    ("total", .int 3)])⟩

/-- `debug_headers` (app.py lines 150-163). -/
def debug_headers (req : Request) : Response :=
  ⟨200, .json (.obj [
    ("headers", headersJson req.headers),
    ("method", .str (match req.method with | .GET => "GET" | .POST => "POST")),
    ("path", .str req.path),
    ("remote_addr", .str req.remoteAddr)])⟩

/-- `not_found` 404 handler (app.py lines 171-178). -/
def not_found (req : Request) : Response :=
  ⟨404, .json (.obj [
    ("error", .str "Not Found"),
    ("message", .str ("The requested URL " ++ req.path ++ " was not found")),
    ("status", .int 404)])⟩

/-- `internal_error` 500 handler (app.py lines 181-189); the error is
logged server-side and does not appear in the body. -/
def internal_error (_e : String) : Response :=
  ⟨500, .json (.obj [
    ("error", .str "Internal Server Error"),
    ("message", .str "An unexpected error occurred"),
    ("status", .int 500)])⟩

/-- Route dispatch of the edge-security app: Flask matches the path first;
a matched path with a disallowed method yields the framework 405 page, an
unmatched path invokes the registered 404 handler.  Every route accepts
only GET. -/
def dispatch (startMicros nowMicros : Nat) (req : Request) : Response :=
  if req.path = "/health" then
    if req.method = Method.GET then health startMicros nowMicros else methodNotAllowed
  else if req.path = "/api/user" then
    if req.method = Method.GET then get_user else methodNotAllowed
  else if req.path = "/api/user-clean" then
    if req.method = Method.GET then get_user_clean else methodNotAllowed
  else if req.path = "/api/users" then
    if req.method = Method.GET then get_users else methodNotAllowed
  else if req.path = "/debug/headers" then
    if req.method = Method.GET then debug_headers req else methodNotAllowed
  else
    not_found req

/-- The Flask request boundary: an unhandled exception raised while
building the response is converted by the 500 handler. -/
def handleRequest (fault : Option String) (startMicros nowMicros : Nat)
    (req : Request) : Response :=
  match fault with
  | some e => internal_error e
  | none => dispatch startMicros nowMicros req

end EdgeSecurity

/-- Serving a trace of requests: the server threads no mutable state, so a
trace is served by mapping each (clock reading, request) pair independently
over the immutable start timestamp. -/
def SmartRouter.serveTrace (startMicros : Nat) (reqs : List (Nat × Request)) :
    List Response :=
  reqs.map fun p => SmartRouter.dispatch startMicros p.1 p.2

/-- Serving a trace of requests on the edge-security instance. -/
def EdgeSecurity.serveTrace (startMicros : Nat) (reqs : List (Nat × Request)) :
    List Response :=
  reqs.map fun p => EdgeSecurity.dispatch startMicros p.1 p.2

/-- A field of the `routing_info` object of a response body. -/
def routingInfoField (r : Response) (k : String) : Option Json :=
  r.jsonBody?.bind fun j => (j.getField "routing_info").bind fun ri => ri.getField k

/-- A top-level field of a response's JSON body. -/
def bodyField (r : Response) (k : String) : Option Json :=
  r.jsonBody?.bind fun j => j.getField k

/-- The top-level keys of a response's JSON body (empty when the response
has no JSON object body). -/
def bodyKeys (r : Response) : List String :=
  match r.jsonBody? with
  | some j => j.keys
  | none => []

/-- A field of a response body, read off the body alone. -/
def respBodyField (b : RespBody) (k : String) : Option Json :=
  match b with
  | .json j => j.getField k
  | .framework _ => none

theorem headerGet_eq_of_lookup (hs : List (String × String)) (name dflt v : String)
    (h : headerLookup hs name = some v) : headerGet hs name dflt = v := by
  unfold headerGet
  unfold headerLookup at h
  cases hfind : hs.find? fun p => eqCI p.1 name with
  | none => rw [hfind] at h; simp at h
  | some p => rw [hfind] at h; simpa using h

theorem headerGet_default_of_lookup_none (hs : List (String × String))
    (name dflt : String) (h : headerLookup hs name = none) :
    headerGet hs name dflt = dflt := by
  unfold headerGet
  unfold headerLookup at h
  cases hfind : hs.find? fun p => eqCI p.1 name with
  | none => rfl
  | some p => rw [hfind] at h; simp at h

theorem dispatch_time_indep_edge (s1 n1 s2 n2 : Nat) (req : Request)
    (h : req.path ≠ "/health") :
    EdgeSecurity.dispatch s1 n1 req = EdgeSecurity.dispatch s2 n2 req := by
  simp [EdgeSecurity.dispatch, h]

theorem dispatch_time_indep_smart (s1 n1 s2 n2 : Nat) (req : Request)
    (h : req.path ≠ "/health") :
    SmartRouter.dispatch s1 n1 req = SmartRouter.dispatch s2 n2 req := by
  simp [SmartRouter.dispatch, h]

/-- C1: for every GET request to `/v2/api/version`, `/v1/api/version` or
`/api/version` of the smart-router instance, the response's
`routing_info.routed_by` equals the first `X-Routed-By` header value carried
by the request, verbatim, and `"direct"` when the request carries none; and
`routing_info.route_reason` likewise echoes `X-Route-Reason` with default
`"none"`. -/
theorem C1_version_routing_echo (start now : Nat) (req : Request)
    (hm : req.method = Method.GET)
    (hp : req.path = "/v2/api/version" ∨ req.path = "/v1/api/version" ∨
          req.path = "/api/version") :
    routingInfoField (SmartRouter.dispatch start now req) "routed_by"
      = some (.str (headerGet req.headers "X-Routed-By" "direct")) ∧
    routingInfoField (SmartRouter.dispatch start now req) "route_reason"
      = some (.str (headerGet req.headers "X-Route-Reason" "none")) ∧
    (∀ v, headerLookup req.headers "X-Routed-By" = some v →
      headerGet req.headers "X-Routed-By" "direct" = v) ∧
    (headerLookup req.headers "X-Routed-By" = none →
      headerGet req.headers "X-Routed-By" "direct" = "direct") ∧
    (∀ v, headerLookup req.headers "X-Route-Reason" = some v →
      headerGet req.headers "X-Route-Reason" "none" = v) ∧
    (headerLookup req.headers "X-Route-Reason" = none →
      headerGet req.headers "X-Route-Reason" "none" = "none") := by
  obtain ⟨m, p, hs, qs, b, ra⟩ := req
  dsimp only at hm hp ⊢
  subst hm
  rcases hp with hp | hp | hp <;> subst hp <;>
    exact ⟨rfl, rfl,
      fun v h => headerGet_eq_of_lookup _ _ _ _ h,
      fun h => headerGet_default_of_lookup_none _ _ _ h,
      fun v h => headerGet_eq_of_lookup _ _ _ _ h,
      fun h => headerGet_default_of_lookup_none _ _ _ h⟩

/-- Witness for C1: with headers `X-Routed-By: filter-x` and
`X-Route-Reason: beta-criteria` on `/v2/api/version` the values are echoed
verbatim; on `/api/version` without those headers the defaults appear. -/
theorem C1_version_routing_echo_witness :
    routingInfoField (SmartRouter.dispatch 0 0
      ⟨Method.GET, "/v2/api/version",
       [("X-Routed-By", "filter-x"), ("X-Route-Reason", "beta-criteria")],
       [], "", "10.0.0.1"⟩) "routed_by" = some (.str "filter-x") ∧
    routingInfoField (SmartRouter.dispatch 0 0
      ⟨Method.GET, "/v2/api/version",
       [("X-Routed-By", "filter-x"), ("X-Route-Reason", "beta-criteria")],
       [], "", "10.0.0.1"⟩) "route_reason" = some (.str "beta-criteria") ∧
    routingInfoField (SmartRouter.dispatch 0 0
      ⟨Method.GET, "/api/version", [], [], "", "10.0.0.1"⟩) "routed_by"
      = some (.str "direct") ∧
    routingInfoField (SmartRouter.dispatch 0 0
      ⟨Method.GET, "/api/version", [], [], "", "10.0.0.1"⟩) "route_reason"
      = some (.str "none") := by
  have h1 := C1_version_routing_echo 0 0
    ⟨Method.GET, "/v2/api/version",
     [("X-Routed-By", "filter-x"), ("X-Route-Reason", "beta-criteria")],
     [], "", "10.0.0.1"⟩ rfl (Or.inl rfl)
  have h2 := C1_version_routing_echo 0 0
    ⟨Method.GET, "/api/version", [], [], "", "10.0.0.1"⟩ rfl (Or.inr (Or.inr rfl))
  exact ⟨h1.1.trans (by rfl), h1.2.1.trans (by rfl),
         h2.1.trans (by rfl), h2.2.1.trans (by rfl)⟩

/-- C2 counterexample: two `/debug/headers` requests agreeing on method,
path, headers, query string and body but arriving from different remote
addresses receive different response bodies on both instances, because
`debug_headers` embeds `request.remote_addr` into the body.  So the response
body is not a function of method, path, headers, query string and body
alone. -/
theorem C2_purity_counterexample :
    (Request.mk Method.GET "/debug/headers" [] [] "" "1.2.3.4").method
      = (Request.mk Method.GET "/debug/headers" [] [] "" "5.6.7.8").method ∧
    (Request.mk Method.GET "/debug/headers" [] [] "" "1.2.3.4").path
      = (Request.mk Method.GET "/debug/headers" [] [] "" "5.6.7.8").path ∧
    (Request.mk Method.GET "/debug/headers" [] [] "" "1.2.3.4").headers
      = (Request.mk Method.GET "/debug/headers" [] [] "" "5.6.7.8").headers ∧
    (Request.mk Method.GET "/debug/headers" [] [] "" "1.2.3.4").args
      = (Request.mk Method.GET "/debug/headers" [] [] "" "5.6.7.8").args ∧
    (Request.mk Method.GET "/debug/headers" [] [] "" "1.2.3.4").body
      = (Request.mk Method.GET "/debug/headers" [] [] "" "5.6.7.8").body ∧
    (EdgeSecurity.dispatch 0 0 (Request.mk Method.GET "/debug/headers" [] [] "" "1.2.3.4")).body
      ≠ (EdgeSecurity.dispatch 0 0 (Request.mk Method.GET "/debug/headers" [] [] "" "5.6.7.8")).body ∧
    (SmartRouter.dispatch 0 0 (Request.mk Method.GET "/debug/headers" [] [] "" "1.2.3.4")).body
      ≠ (SmartRouter.dispatch 0 0 (Request.mk Method.GET "/debug/headers" [] [] "" "5.6.7.8")).body := by
  refine ⟨rfl, rfl, rfl, rfl, rfl, ?_, ?_⟩ <;>
  · intro h
    have hfield := congrArg (fun b => respBodyField b "remote_addr") h
    have e1 : respBodyField
        (EdgeSecurity.dispatch 0 0 (Request.mk Method.GET "/debug/headers" [] [] "" "1.2.3.4")).body
        "remote_addr" = some (Json.str "1.2.3.4") := rfl
    have e2 : respBodyField
        (SmartRouter.dispatch 0 0 (Request.mk Method.GET "/debug/headers" [] [] "" "1.2.3.4")).body
        "remote_addr" = some (Json.str "1.2.3.4") := rfl
    have e3 : respBodyField
        (EdgeSecurity.dispatch 0 0 (Request.mk Method.GET "/debug/headers" [] [] "" "5.6.7.8")).body
        "remote_addr" = some (Json.str "5.6.7.8") := rfl
    have e4 : respBodyField
        (SmartRouter.dispatch 0 0 (Request.mk Method.GET "/debug/headers" [] [] "" "5.6.7.8")).body
        "remote_addr" = some (Json.str "5.6.7.8") := rfl
    simp only [e1, e2, e3, e4] at hfield
    have : "1.2.3.4" = "5.6.7.8" := Json.str.inj (Option.some.inj hfield)
    exact absurd this (by decide)

/-- C2 (amended): on either instance and on every route, including
`/health`, the response is a pure function of the whole current request —
method, path, headers, query string, body AND remote address — together
with the start timestamp and the clock reading; off `/health` the response
is additionally independent of both timestamps; and on every route a
request served inside any trace receives exactly the response it receives
alone, unchanged by the requests served before or after it. -/
theorem C2_purity_amended (start now start2 now2 : Nat) (r r2 : Request)
    (hm : r.method = r2.method) (hp : r.path = r2.path)
    (hh : r.headers = r2.headers) (ha : r.args = r2.args)
    (hb : r.body = r2.body) (hr : r.remoteAddr = r2.remoteAddr) :
    EdgeSecurity.dispatch start now r = EdgeSecurity.dispatch start now r2 ∧
    SmartRouter.dispatch start now r = SmartRouter.dispatch start now r2 ∧
    (r.path ≠ "/health" →
      EdgeSecurity.dispatch start now r = EdgeSecurity.dispatch start2 now2 r2) ∧
    (r.path ≠ "/health" →
      SmartRouter.dispatch start now r = SmartRouter.dispatch start2 now2 r2) ∧
    (∀ before after, EdgeSecurity.serveTrace start (before ++ (now, r) :: after)
      = EdgeSecurity.serveTrace start before
        ++ EdgeSecurity.dispatch start now r :: EdgeSecurity.serveTrace start after) ∧
    (∀ before after, SmartRouter.serveTrace start (before ++ (now, r) :: after)
      = SmartRouter.serveTrace start before
        ++ SmartRouter.dispatch start now r :: SmartRouter.serveTrace start after) := by
  obtain ⟨m, p, hs, qs, b, ra⟩ := r
  obtain ⟨m2, p2, hs2, qs2, b2, ra2⟩ := r2
  dsimp only at hm hp hh ha hb hr ⊢
  subst hm; subst hp; subst hh; subst ha; subst hb; subst hr
  refine ⟨rfl, rfl, ?_, ?_, ?_, ?_⟩
  · intro hnh
    exact dispatch_time_indep_edge _ _ _ _ _ hnh
  · intro hnh
    exact dispatch_time_indep_smart _ _ _ _ _ hnh
  · intro before after
    simp [EdgeSecurity.serveTrace]
  · intro before after
    simp [SmartRouter.serveTrace]

/-- Witness for C2 (amended): a concrete `/api/user` request served under
two different clocks, a concrete `/health` request (determinism holds there
too), and a `/health` request served in the middle of a trace. -/
theorem C2_purity_amended_witness :
    EdgeSecurity.dispatch 0 5 (Request.mk Method.GET "/api/user" [] [] "" "9.9.9.9")
      = EdgeSecurity.dispatch 7 11 (Request.mk Method.GET "/api/user" [] [] "" "9.9.9.9") ∧
    SmartRouter.dispatch 0 5 (Request.mk Method.GET "/health" [] [] "" "8.8.8.8")
      = SmartRouter.dispatch 0 5 (Request.mk Method.GET "/health" [] [] "" "8.8.8.8") ∧
    SmartRouter.serveTrace 0
        [(1, Request.mk Method.GET "/api/user" [] [] "" "9.9.9.9"),
         (5, Request.mk Method.GET "/health" [] [] "" "8.8.8.8"),
         (9, Request.mk Method.POST "/debug/echo" [] [] "x" "8.8.8.8")]
      = SmartRouter.serveTrace 0
          [(1, Request.mk Method.GET "/api/user" [] [] "" "9.9.9.9")]
        ++ SmartRouter.dispatch 0 5 (Request.mk Method.GET "/health" [] [] "" "8.8.8.8")
        :: SmartRouter.serveTrace 0
             [(9, Request.mk Method.POST "/debug/echo" [] [] "x" "8.8.8.8")] := by
  have hu := C2_purity_amended 0 5 7 11
    (Request.mk Method.GET "/api/user" [] [] "" "9.9.9.9")
    (Request.mk Method.GET "/api/user" [] [] "" "9.9.9.9")
    rfl rfl rfl rfl rfl rfl
  have hh := C2_purity_amended 0 5 0 5
    (Request.mk Method.GET "/health" [] [] "" "8.8.8.8")
    (Request.mk Method.GET "/health" [] [] "" "8.8.8.8")
    rfl rfl rfl rfl rfl rfl
  exact ⟨hu.2.2.1 (by decide), hh.2.1, hh.2.2.2.2.2
    [(1, Request.mk Method.GET "/api/user" [] [] "" "9.9.9.9")]
    [(9, Request.mk Method.POST "/debug/echo" [] [] "x" "8.8.8.8")]⟩

/-- C3: every `/health` request on either instance is answered with status
200 and a non-negative integer `uptime_seconds`, and across two calls whose
clock readings are at or after the start timestamp and non-decreasing, the
later `uptime_seconds` is at least the earlier one. -/
theorem C3_health_uptime (start n1 n2 : Nat) (r1 r2 : Request)
    (hm1 : r1.method = Method.GET) (hp1 : r1.path = "/health")
    (hm2 : r2.method = Method.GET) (hp2 : r2.path = "/health")
    (hs1 : start ≤ n1) (h12 : n1 ≤ n2) :
    ∃ u1 u2 : Int,
      (EdgeSecurity.dispatch start n1 r1).status = 200 ∧
      (SmartRouter.dispatch start n1 r1).status = 200 ∧
      bodyField (EdgeSecurity.dispatch start n1 r1) "uptime_seconds" = some (.int u1) ∧
      bodyField (EdgeSecurity.dispatch start n2 r2) "uptime_seconds" = some (.int u2) ∧
      bodyField (SmartRouter.dispatch start n1 r1) "uptime_seconds" = some (.int u1) ∧
      bodyField (SmartRouter.dispatch start n2 r2) "uptime_seconds" = some (.int u2) ∧
      0 ≤ u1 ∧ u1 ≤ u2 := by
  obtain ⟨m1, p1, hs1', qs1, b1, ra1⟩ := r1
  obtain ⟨m2, p2, hs2', qs2, b2, ra2⟩ := r2
  dsimp only at hm1 hp1 hm2 hp2
  subst hm1; subst hp1; subst hm2; subst hp2
  refine ⟨Int.ofNat ((n1 - start) / 1000000), Int.ofNat ((n2 - start) / 1000000),
    rfl, rfl, rfl, rfl, rfl, rfl, Int.ofNat_nonneg _, ?_⟩
  exact Int.ofNat_le.mpr (Nat.div_le_div_right (Nat.sub_le_sub_right h12 start))

/-- Witness for C3 at concrete clock readings 1500000µs and 3700000µs past a
start timestamp of 0: uptimes 1 and 3 seconds. -/
theorem C3_health_uptime_witness :
    ∃ u1 u2 : Int,
      (EdgeSecurity.dispatch 0 1500000 (Request.mk Method.GET "/health" [] [] "" "h")).status = 200 ∧
      (SmartRouter.dispatch 0 1500000 (Request.mk Method.GET "/health" [] [] "" "h")).status = 200 ∧
      bodyField (EdgeSecurity.dispatch 0 1500000 (Request.mk Method.GET "/health" [] [] "" "h"))
        "uptime_seconds" = some (.int u1) ∧
      bodyField (EdgeSecurity.dispatch 0 3700000 (Request.mk Method.GET "/health" [] [] "" "h"))
        "uptime_seconds" = some (.int u2) ∧
      bodyField (SmartRouter.dispatch 0 1500000 (Request.mk Method.GET "/health" [] [] "" "h"))
        "uptime_seconds" = some (.int u1) ∧
      bodyField (SmartRouter.dispatch 0 3700000 (Request.mk Method.GET "/health" [] [] "" "h"))
        "uptime_seconds" = some (.int u2) ∧
      0 ≤ u1 ∧ u1 ≤ u2 :=
  C3_health_uptime 0 1500000 3700000
    (Request.mk Method.GET "/health" [] [] "" "h")
    (Request.mk Method.GET "/health" [] [] "" "h")
    rfl rfl rfl rfl (by decide) (by decide)

/-- C4: for identical request headers, GET `/api/version` and GET
`/v1/api/version` of the smart-router instance produce identical response
bodies, whatever the remaining request fields are — both paths dispatch to
`get_version_v1`, whose body does not depend on the request path. -/
theorem C4_version_alias (start now : Nat) (r1 r2 : Request)
    (hm1 : r1.method = Method.GET) (hm2 : r2.method = Method.GET)
    (hp1 : r1.path = "/api/version") (hp2 : r2.path = "/v1/api/version")
    (hh : r1.headers = r2.headers) :
    (SmartRouter.dispatch start now r1).body = (SmartRouter.dispatch start now r2).body := by
  obtain ⟨m1, p1, hs1, qs1, b1, ra1⟩ := r1
  obtain ⟨m2, p2, hs2, qs2, b2, ra2⟩ := r2
  dsimp only at hm1 hp1 hm2 hp2 hh
  subst hm1; subst hp1; subst hm2; subst hp2; subst hh
  rfl

/-- Witness for C4 at a concrete header list carrying `X-Routed-By`. -/
theorem C4_version_alias_witness :
    (SmartRouter.dispatch 0 0 (Request.mk Method.GET "/api/version"
        [("X-Routed-By", "wasm")] [] "" "1.1.1.1")).body
      = (SmartRouter.dispatch 3 9 (Request.mk Method.GET "/v1/api/version"
          [("X-Routed-By", "wasm")] [("q", "1")] "zz" "2.2.2.2")).body := by
  have h := C4_version_alias 3 9
    (Request.mk Method.GET "/api/version" [("X-Routed-By", "wasm")] [] "" "1.1.1.1")
    (Request.mk Method.GET "/v1/api/version" [("X-Routed-By", "wasm")] [("q", "1")] "zz" "2.2.2.2")
    rfl rfl rfl rfl rfl
  have ht := dispatch_time_indep_smart 0 0 3 9
    (Request.mk Method.GET "/api/version" [("X-Routed-By", "wasm")] [] "" "1.1.1.1")
    (by decide)
  exact (congrArg Response.body ht).trans h

/-- C5 counterexample: `POST /health` is a method+path combination with no
matching route (every `/health` rule accepts only GET), yet on both
instances the response is the framework's 405 page — status 405, no JSON
body — not the 404 JSON envelope the claim requires. -/
theorem C5_not_found_counterexample :
    (EdgeSecurity.dispatch 0 0 (Request.mk Method.POST "/health" [] [] "" "c")).status = 405 ∧
    (EdgeSecurity.dispatch 0 0 (Request.mk Method.POST "/health" [] [] "" "c")).status ≠ 404 ∧
    (EdgeSecurity.dispatch 0 0 (Request.mk Method.POST "/health" [] [] "" "c")).jsonBody? = none ∧
    (SmartRouter.dispatch 0 0 (Request.mk Method.POST "/health" [] [] "" "c")).status = 405 ∧
    (SmartRouter.dispatch 0 0 (Request.mk Method.POST "/health" [] [] "" "c")).status ≠ 404 ∧
    (SmartRouter.dispatch 0 0 (Request.mk Method.POST "/health" [] [] "" "c")).jsonBody? = none :=
  ⟨rfl, by decide, rfl, rfl, by decide, rfl⟩

/-- The paths of the routes registered on the edge-security app. -/
def EdgeSecurity.routePaths : List String :=
  ["/health", "/api/user", "/api/user-clean", "/api/users", "/debug/headers"]

/-- The paths of the routes registered on the smart-router app. -/
def SmartRouter.routePaths : List String :=
  ["/health", "/api/version", "/v1/api/version", "/v2/api/version",
   "/v1/api/data", "/v2/api/data", "/debug/headers", "/debug/echo"]

/-- C5 (amended), per instance: every request whose PATH matches no
registered route of the respective instance is answered with status 404 and
exactly the body `{error: "Not Found", message: "The requested URL <path>
was not found", status: 404}`; a request to a registered path of the
respective instance with a method its route does not allow (any non-GET
method, except on the smart-router's `/debug/echo`, which also accepts
POST) instead receives the framework's 405 response. -/
theorem C5_not_found_amended (start now : Nat) (req : Request) :
    (req.path ∉ EdgeSecurity.routePaths →
      EdgeSecurity.dispatch start now req = ⟨404, .json (.obj [
        ("error", .str "Not Found"),
        ("message", .str ("The requested URL " ++ req.path ++ " was not found")),
        ("status", .int 404)])⟩) ∧
    (req.path ∉ SmartRouter.routePaths →
      SmartRouter.dispatch start now req = ⟨404, .json (.obj [
        ("error", .str "Not Found"),
        ("message", .str ("The requested URL " ++ req.path ++ " was not found")),
        ("status", .int 404)])⟩) ∧
    (req.path ∈ EdgeSecurity.routePaths → req.method ≠ Method.GET →
      EdgeSecurity.dispatch start now req = methodNotAllowed) ∧
    (req.path ∈ SmartRouter.routePaths → req.path ≠ "/debug/echo" →
      req.method ≠ Method.GET →
      SmartRouter.dispatch start now req = methodNotAllowed) := by
  obtain ⟨m, p, hs, qs, b, ra⟩ := req
  dsimp only
  refine ⟨?_, ?_, ?_, ?_⟩
  · intro hE
    simp only [EdgeSecurity.routePaths, List.mem_cons, List.not_mem_nil,
      or_false, not_or] at hE
    obtain ⟨e1, e2, e3, e4, e5⟩ := hE
    simp [EdgeSecurity.dispatch, EdgeSecurity.not_found, e1, e2, e3, e4, e5]
  · intro hS
    simp only [SmartRouter.routePaths, List.mem_cons, List.not_mem_nil,
      or_false, not_or] at hS
    obtain ⟨s1, s2, s3, s4, s5, s6, s7, s8⟩ := hS
    simp [SmartRouter.dispatch, SmartRouter.not_found,
          s1, s2, s3, s4, s5, s6, s7, s8]
  · intro hmem hm
    cases m with
    | GET => exact absurd rfl hm
    | POST =>
      simp only [EdgeSecurity.routePaths, List.mem_cons,
        List.not_mem_nil, or_false] at hmem
      rcases hmem with h | h | h | h | h <;> subst h <;> rfl
  · intro hmem hne hm
    cases m with
    | GET => exact absurd rfl hm
    | POST =>
      simp only [SmartRouter.routePaths, List.mem_cons,
        List.not_mem_nil, or_false] at hmem
      rcases hmem with h | h | h | h | h | h | h | h <;>
        first
        | exact absurd h hne
        | (subst h; rfl)

/-- Witness for C5 (amended): the undefined path `/nope` gets the 404
envelope on both instances — including paths registered only on the other
instance (`GET /api/version` on edge-security, `GET /api/users` on
smart-router) — and a disallowed method on a registered path (`POST
/api/user`, `POST /v1/api/data`) gets the framework 405 response. -/
theorem C5_not_found_amended_witness :
    EdgeSecurity.dispatch 0 0 (Request.mk Method.GET "/nope" [] [] "" "c")
      = ⟨404, .json (.obj [
          ("error", .str "Not Found"),
          ("message", .str "The requested URL /nope was not found"),
          ("status", .int 404)])⟩ ∧
    SmartRouter.dispatch 0 0 (Request.mk Method.GET "/nope" [] [] "" "c")
      = ⟨404, .json (.obj [
          ("error", .str "Not Found"),
          ("message", .str "The requested URL /nope was not found"),
          ("status", .int 404)])⟩ ∧
    EdgeSecurity.dispatch 0 0 (Request.mk Method.GET "/api/version" [] [] "" "c")
      = ⟨404, .json (.obj [
          ("error", .str "Not Found"),
          ("message", .str "The requested URL /api/version was not found"),
          ("status", .int 404)])⟩ ∧
    SmartRouter.dispatch 0 0 (Request.mk Method.GET "/api/users" [] [] "" "c")
      = ⟨404, .json (.obj [
          ("error", .str "Not Found"),
          ("message", .str "The requested URL /api/users was not found"),
          ("status", .int 404)])⟩ ∧
    EdgeSecurity.dispatch 0 0 (Request.mk Method.POST "/api/user" [] [] "" "c")
      = methodNotAllowed ∧
    SmartRouter.dispatch 0 0 (Request.mk Method.POST "/v1/api/data" [] [] "" "c")
      = methodNotAllowed := by
  have h1 := C5_not_found_amended 0 0 (Request.mk Method.GET "/nope" [] [] "" "c")
  have h2 := C5_not_found_amended 0 0 (Request.mk Method.GET "/api/version" [] [] "" "c")
  have h3 := C5_not_found_amended 0 0 (Request.mk Method.GET "/api/users" [] [] "" "c")
  have h4 := C5_not_found_amended 0 0 (Request.mk Method.POST "/api/user" [] [] "" "c")
  have h5 := C5_not_found_amended 0 0 (Request.mk Method.POST "/v1/api/data" [] [] "" "c")
  exact ⟨h1.1 (by decide), h1.2.1 (by decide), h2.1 (by decide), h3.2.1 (by decide),
         h4.2.2.1 (by decide) (by decide), h5.2.2.2 (by decide) (by decide) (by decide)⟩

/-- C6: whatever exception reaches the 500 boundary while a response is
being built, either instance answers with status 500 and exactly the body
`{error: "Internal Server Error", message: "An unexpected error occurred",
status: 500}`: the body is the same for every exception, so no exception
detail reaches the client. -/
theorem C6_internal_error_opaque :
    ∀ (e : String) (start now : Nat) (req : Request),
      EdgeSecurity.handleRequest (some e) start now req = ⟨500, .json (.obj [
        ("error", .str "Internal Server Error"),
        ("message", .str "An unexpected error occurred"),
        ("status", .int 500)])⟩ ∧
      SmartRouter.handleRequest (some e) start now req = ⟨500, .json (.obj [
        ("error", .str "Internal Server Error"),
        ("message", .str "An unexpected error occurred"),
        ("status", .int 500)])⟩ ∧
      (∀ e2, EdgeSecurity.handleRequest (some e) start now req
        = EdgeSecurity.handleRequest (some e2) start now req) ∧
      (∀ e2, SmartRouter.handleRequest (some e) start now req
        = SmartRouter.handleRequest (some e2) start now req) :=
  fun _ _ _ _ => ⟨rfl, rfl, fun _ => rfl, fun _ => rfl⟩

/-- C7: every GET `/api/users` response of the edge-security instance
carries a `users` array of exactly 3 elements, each with `name`, `email`,
`ssn` and `card` fields, and a `total` field equal to the array's length. -/
theorem C7_users_total (start now : Nat) (req : Request)
    (hm : req.method = Method.GET) (hp : req.path = "/api/users") :
    ∃ l : List Json,
      bodyField (EdgeSecurity.dispatch start now req) "users" = some (.arr l) ∧
      l.length = 3 ∧
      (l.all fun u => (u.getField "name").isSome && (u.getField "email").isSome
        && (u.getField "ssn").isSome && (u.getField "card").isSome) = true ∧
      bodyField (EdgeSecurity.dispatch start now req) "total"
        = some (.int (l.length : Int)) := by
  obtain ⟨m, p, hs, qs, b, ra⟩ := req
  dsimp only at hm hp
  subst hm; subst hp
  exact ⟨[
    .obj [("id", .str "user-001"), ("name", .str "Alice Smith"),
          ("email", .str "alice.smith@example.com"),
          ("ssn", .str "111-22-3333"), ("card", .str "5500-0000-0000-0004")],
    .obj [("id", .str "user-002"), ("name", .str "Bob Johnson"),
          ("email", .str "bob.j@company.org"),
          ("ssn", .str "444-55-6666"), ("card", .str "3400-000000-00009")],
    .obj [("id", .str "user-003"), ("name", .str "Carol Williams"),
          ("email", .str "carol@personal.net"),
          ("ssn", .str "777-88-9999"), ("card", .str "6011-0000-0000-0004")]],
    rfl, rfl, rfl, rfl⟩

/-- Witness for C7 at a concrete GET `/api/users` request. -/
theorem C7_users_total_witness :
    ∃ l : List Json,
      bodyField (EdgeSecurity.dispatch 0 0 (Request.mk Method.GET "/api/users" [] [] "" "w"))
        "users" = some (.arr l) ∧
      l.length = 3 ∧
      (l.all fun u => (u.getField "name").isSome && (u.getField "email").isSome
        && (u.getField "ssn").isSome && (u.getField "card").isSome) = true ∧
      bodyField (EdgeSecurity.dispatch 0 0 (Request.mk Method.GET "/api/users" [] [] "" "w"))
        "total" = some (.int (l.length : Int)) :=
  C7_users_total 0 0 (Request.mk Method.GET "/api/users" [] [] "" "w") rfl rfl

/-- C8: the GET `/api/user-clean` response body of the edge-security
instance contains, at any depth, no field named `ssn`, `card_number` or
`payment`. -/
theorem C8_user_clean_no_pii (start now : Nat) (req : Request)
    (hm : req.method = Method.GET) (hp : req.path = "/api/user-clean") :
    ∃ j : Json,
      (EdgeSecurity.dispatch start now req).jsonBody? = some j ∧
      Json.hasDeep "ssn" j = false ∧
      Json.hasDeep "card_number" j = false ∧
      Json.hasDeep "payment" j = false := by
  obtain ⟨m, p, hs, qs, b, ra⟩ := req
  dsimp only at hm hp
  subst hm; subst hp
  exact ⟨.obj [
    ("id", .str "user-12345"),
    ("name", .str "John Doe"),
    ("membership", .str "gold"),
    ("preferences", .obj [
      ("newsletter", .bool true),
      ("notifications", .bool true)]),
    ("created_at", .str "2024-01-15T10:30:00Z")], rfl, rfl, rfl, rfl⟩

/-- Witness for C8 at a concrete GET `/api/user-clean` request. -/
theorem C8_user_clean_no_pii_witness :
    ∃ j : Json,
      (EdgeSecurity.dispatch 0 0 (Request.mk Method.GET "/api/user-clean" [] [] "" "w")).jsonBody?
        = some j ∧
      Json.hasDeep "ssn" j = false ∧
      Json.hasDeep "card_number" j = false ∧
      Json.hasDeep "payment" j = false :=
  C8_user_clean_no_pii 0 0 (Request.mk Method.GET "/api/user-clean" [] [] "" "w") rfl rfl

/-- C9: the response to every POST `/debug/echo` request of the
smart-router instance has a `body` field equal to the raw request body text,
a `method` field equal to "POST", and carries the request's path and
headers. -/
theorem C9_echo_post (start now : Nat) (req : Request)
    (hm : req.method = Method.POST) (hp : req.path = "/debug/echo") :
    bodyField (SmartRouter.dispatch start now req) "body" = some (.str req.body) ∧
    bodyField (SmartRouter.dispatch start now req) "method" = some (.str "POST") ∧
    bodyField (SmartRouter.dispatch start now req) "path" = some (.str req.path) ∧
    bodyField (SmartRouter.dispatch start now req) "headers"
      = some (headersJson req.headers) := by
  obtain ⟨m, p, hs, qs, b, ra⟩ := req
  dsimp only at hm hp
  subst hm; subst hp
  exact ⟨rfl, rfl, rfl, rfl⟩

/-- Witness for C9: posting body `hello` to `/debug/echo` echoes it. -/
theorem C9_echo_post_witness :
    bodyField (SmartRouter.dispatch 0 0
        (Request.mk Method.POST "/debug/echo" [("A", "b")] [] "hello" "w"))
      "body" = some (.str "hello") ∧
    bodyField (SmartRouter.dispatch 0 0
        (Request.mk Method.POST "/debug/echo" [("A", "b")] [] "hello" "w"))
      "method" = some (.str "POST") ∧
    bodyField (SmartRouter.dispatch 0 0
        (Request.mk Method.POST "/debug/echo" [("A", "b")] [] "hello" "w"))
      "path" = some (.str "/debug/echo") ∧
    bodyField (SmartRouter.dispatch 0 0
        (Request.mk Method.POST "/debug/echo" [("A", "b")] [] "hello" "w"))
      "headers" = some (.obj [("A", .str "b")]) :=
  C9_echo_post 0 0 (Request.mk Method.POST "/debug/echo" [("A", "b")] [] "hello" "w") rfl rfl

/-- C10: a GET `/debug/echo` response of the smart-router instance has
exactly the top-level keys `method`, `path`, `headers`, `args` and no `body`
key; the `body` key appears exactly when the request is a POST, and the
`args` query-parameter mapping is present for POST requests as well. -/
theorem C10_echo_keys (start now : Nat) (rg rp : Request)
    (hmg : rg.method = Method.GET) (hpg : rg.path = "/debug/echo")
    (hmp : rp.method = Method.POST) (hpp : rp.path = "/debug/echo") :
    bodyKeys (SmartRouter.dispatch start now rg) = ["method", "path", "headers", "args"] ∧
    bodyField (SmartRouter.dispatch start now rg) "body" = none ∧
    bodyField (SmartRouter.dispatch start now rg) "args" = some (argsJson rg.args) ∧
    bodyKeys (SmartRouter.dispatch start now rp)
      = ["method", "path", "headers", "args", "body"] ∧
    bodyField (SmartRouter.dispatch start now rp) "body" = some (.str rp.body) ∧
    bodyField (SmartRouter.dispatch start now rp) "args" = some (argsJson rp.args) := by
  obtain ⟨mg, pg, hsg, qsg, bg, rag⟩ := rg
  obtain ⟨mp, pp, hsp, qsp, bp, rap⟩ := rp
  dsimp only at hmg hpg hmp hpp
  subst hmg; subst hpg; subst hmp; subst hpp
  exact ⟨rfl, rfl, rfl, rfl, rfl, rfl⟩

/-- Witness for C10 at concrete GET and POST `/debug/echo` requests with a
query parameter. -/
theorem C10_echo_keys_witness :
    bodyKeys (SmartRouter.dispatch 0 0
        (Request.mk Method.GET "/debug/echo" [] [("q", "1")] "" "w"))
      = ["method", "path", "headers", "args"] ∧
    bodyField (SmartRouter.dispatch 0 0
        (Request.mk Method.GET "/debug/echo" [] [("q", "1")] "" "w"))
      "body" = none ∧
    bodyField (SmartRouter.dispatch 0 0
        (Request.mk Method.GET "/debug/echo" [] [("q", "1")] "" "w"))
      "args" = some (.obj [("q", .str "1")]) ∧
    bodyKeys (SmartRouter.dispatch 0 0
        (Request.mk Method.POST "/debug/echo" [] [("q", "1")] "x" "w"))
      = ["method", "path", "headers", "args", "body"] ∧
    bodyField (SmartRouter.dispatch 0 0
        (Request.mk Method.POST "/debug/echo" [] [("q", "1")] "x" "w"))
      "body" = some (.str "x") ∧
    bodyField (SmartRouter.dispatch 0 0
        (Request.mk Method.POST "/debug/echo" [] [("q", "1")] "x" "w"))
      "args" = some (.obj [("q", .str "1")]) :=
  C10_echo_keys 0 0
    (Request.mk Method.GET "/debug/echo" [] [("q", "1")] "" "w")
    (Request.mk Method.POST "/debug/echo" [] [("q", "1")] "x" "w")
    rfl rfl rfl rfl
